import Mathlib

/-!
Shallow embedding of `relay.go` from the resocks repository: the client-side
relay loop (`runRemoteProxyRelay`), the per-attempt dial/bridge phase
(`connectBackAndRelay`) and the TLS configuration builder (`clientTLSConfig`).

Go side effects (prints, sleeps, dials, closes) are recorded as an explicit
event trace; the network environment of each connection attempt is an input
(`AttemptEnv`), and the unbounded `for` loop is run on explicit fuel, with a
`running` outcome when the fuel is exhausted before the loop returns.

`ParseConnectionKey` and `ClientTLSConfig` are defined elsewhere in the
repository (not under the sources given here); `clientTLSConfig` and
`runRemoteProxyRelay` therefore take them as function parameters, and concrete
models of them (from the spec) are provided for instantiation.
-/

deriving instance DecidableEq for Except

/-- Go `error` values, modelled as their message strings
(`fmt.Errorf("stage: %w", err)` becomes prefixing with `"stage: "`). -/
abbrev GoErr := String

/-- The fields of Go's `tls.Config` that the relay code reads or writes
(`Certificates`, `RootCAs`, `ServerName`, `InsecureSkipVerify`), together
with representative untouched fields (`MinVersion`, `NextProtos`) so that
frame conditions are expressible.  Certificates and CA pools are abstract
numeric handles. -/
structure TLSConfig where
  certificates : List Nat
  rootCAs : Option Nat
  minVersion : Nat
  nextProtos : List String
  serverName : String
  insecureSkipVerify : Bool
deriving Repr, DecidableEq

/-- The zero value of Go's `tls.Config`: all fields at their zero values.
`&tls.Config\x7bInsecureSkipVerify: true\x7d` in the source is this record with
that one field set. -/
def TLSConfig.zero : TLSConfig :=
  { certificates := [], rootCAs := none, minVersion := 0, nextProtos := [],
    serverName := "", insecureSkipVerify := false }

/-- `clientTLSConfig` (relay.go lines 107-142).  The Go `switch` evaluates its
three `case` guards in order and falls to `default` when none holds; the
guards `!insecure && key == ""`, `insecure && key == ""`,
`insecure && key != ""` are mutually exclusive and the `default` branch is
exactly `!insecure && key != ""`.  The out-of-source helpers
`ParseConnectionKey` and `ClientTLSConfig` are the parameters `parseKey` and
`mkClientCfg` (over an abstract key-material type `K`). -/
def clientTLSConfig {K : Type} (parseKey : String → Except GoErr K)
    (mkClientCfg : K → Except GoErr TLSConfig)
    (connectionKey : String) (insecure : Bool) : Except GoErr TLSConfig :=
  if !insecure && connectionKey == "" then
    .error "connection key is required"
  else if insecure && connectionKey == "" then
    .ok { TLSConfig.zero with insecureSkipVerify := true }
  else if insecure && connectionKey != "" then
    match parseKey connectionKey with
    | .error e => .error ("parse connection key: " ++ e)
    | .ok key =>
      match mkClientCfg key with
      | .error e => .error ("configure TLS: " ++ e)
      | .ok cfg => .ok { cfg with insecureSkipVerify := true, serverName := "" }
  else
    match parseKey connectionKey with
    | .error e => .error ("parse connection key: " ++ e)
    | .ok key =>
      match mkClientCfg key with
      | .error e => .error ("configure TLS: " ++ e)
      | .ok cfg => .ok cfg

/-- Modelled from the spec: the `IdentityMaterial` produced by parsing a
connection key (section 3 of the spec: certificate + private key + expected
peer identity).  The certificate/key pair is an abstract numeric handle. -/
structure IdentityMaterial where
  clientCert : Nat
  caCert : Nat
  expectedPeer : String
deriving Repr, DecidableEq

/-- Modelled from the spec: `ParseConnectionKey` is defined in the repository
outside the given sources.  Per the spec (section 4.1) it parses a non-empty
opaque secret string into identity material, failing on malformed input; the
malformedness criterion is abstract, modelled here as containing a bang
character or being empty. -/
def ParseConnectionKey (s : String) : Except GoErr IdentityMaterial :=
  if s == "" || s.data.contains '!' then
    .error "invalid connection key"
  else
    .ok { clientCert := s.length, caCert := s.length + 1, expectedPeer := "resocks" }

/-- Modelled from the spec: `ClientTLSConfig` is defined in the repository
outside the given sources.  Per the spec (section 4.2, row insecure=false /
key present) it builds a verified TLS client config from the identity
material: client certificate presented, full server-certificate verification
enabled against the derived CA, expected server identity set. -/
def ClientTLSConfig (key : IdentityMaterial) : Except GoErr TLSConfig :=
  .ok { certificates := [key.clientCert], rootCAs := some key.caCert,
        minVersion := 13, nextProtos := [], serverName := key.expectedPeer,
        insecureSkipVerify := false }

/-- One observable event of the relay: a TLS dial attempt (with the config,
target address and timeout handed to `tls.DialWithDialer`), the
"connected to ..." report, the start of `socksServer.Serve`, the deferred
closes, the non-fatal error report, the "reconnecting after ..." report, and
the reconnect sleep. -/
inductive Ev where
  | dial (cfg : TLSConfig) (addr : String) (timeout : Nat)
  | connected (remote : String)
  | serveStart
  | closeSession
  | closeConn
  | reportError (e : GoErr)
  | reportReconnect (d : Nat)
  | sleep (d : Nat)
deriving Repr, DecidableEq

/-- The environment of one `connectBackAndRelay` call: the outcome of the TLS
dial (on success, the remote address of the connection), of
`yamux.Server`, of `socks5.New`, and of `socksServer.Serve`. -/
structure AttemptEnv where
  dialResult : Except GoErr String
  muxResult : Except GoErr Unit
  socksNewResult : Except GoErr Unit
  serveResult : Except GoErr Unit

/-- `connectBackAndRelay` (relay.go lines 77-105), as a trace of events plus
the returned error.  `defer conn.Close()` is registered right after the
"connected" report and `defer yamuxServer.Close()` right after the
multiplexer is created; Go runs deferred calls in reverse registration order
on every return path, so the session close precedes the connection close. -/
def connectBackAndRelay (tlsConfig : TLSConfig) (env : AttemptEnv)
    (connectBackAddr : String) (timeout : Nat) : List Ev × Except GoErr Unit :=
  match env.dialResult with
  | .error e => ([.dial tlsConfig connectBackAddr timeout], .error ("dial: " ++ e))
  | .ok remote =>
    match env.muxResult with
    | .error e =>
      ([.dial tlsConfig connectBackAddr timeout, .connected remote, .closeConn],
       .error ("initialize multiplexer: " ++ e))
    | .ok _ =>
      match env.socksNewResult with
      | .error e =>
        ([.dial tlsConfig connectBackAddr timeout, .connected remote,
          .closeSession, .closeConn],
         .error ("initialize socks5 server: " ++ e))
      | .ok _ =>
        match env.serveResult with
        | .error e =>
          ([.dial tlsConfig connectBackAddr timeout, .connected remote,
            .serveStart, .closeSession, .closeConn],
           .error ("socks5 server: " ++ e))
        | .ok _ =>
          ([.dial tlsConfig connectBackAddr timeout, .connected remote,
            .serveStart, .closeSession, .closeConn],
           .ok ())

/-- Outcome of running the relay loop on a given amount of fuel: it returned
an error, returned `nil`, or is still looping when the fuel runs out. -/
inductive LoopOutcome where
  | failed (e : GoErr)
  | done
  | running
deriving Repr, DecidableEq

/-- The `for` loop of `runRemoteProxyRelay` (relay.go lines 57-74), run on
explicit fuel, with `envs i` the environment of the i-th connection attempt.
On an attempt error: return it when `reconnectAfter == 0`, else report it
non-fatally; then (both after a reported error and after a clean attempt)
return `nil` when `reconnectAfter == 0`, else report and sleep the reconnect
delay and loop again. -/
def relayLoop (tlsConfig : TLSConfig) (envs : Nat → AttemptEnv)
    (connectBackAddr : String) (timeout reconnectAfter : Nat) :
    Nat → Nat → List Ev × LoopOutcome
  | 0, _ => ([], .running)
  | fuel + 1, i =>
    let a := connectBackAndRelay tlsConfig (envs i) connectBackAddr timeout
    match a.2 with
    | .error e =>
      if reconnectAfter = 0 then
        (a.1, .failed e)
      else
        let rest := relayLoop tlsConfig envs connectBackAddr timeout reconnectAfter fuel (i + 1)
        (a.1 ++ .reportError e :: .reportReconnect reconnectAfter ::
          .sleep reconnectAfter :: rest.1, rest.2)
    | .ok _ =>
      if reconnectAfter = 0 then
        (a.1, .done)
      else
        let rest := relayLoop tlsConfig envs connectBackAddr timeout reconnectAfter fuel (i + 1)
        (a.1 ++ .reportReconnect reconnectAfter :: .sleep reconnectAfter :: rest.1, rest.2)

/-- `runRemoteProxyRelay` (relay.go lines 49-75): build the TLS config once at
startup, returning its error wrapped with the "build TLS config" stage before
any loop iteration; otherwise run the relay loop. -/
def runRemoteProxyRelay {K : Type} (parseKey : String → Except GoErr K)
    (mkClientCfg : K → Except GoErr TLSConfig) (envs : Nat → AttemptEnv)
    (connectBackAddr connectionKey : String) (timeout reconnectAfter : Nat)
    (insecure : Bool) (fuel : Nat) : List Ev × LoopOutcome :=
  match clientTLSConfig parseKey mkClientCfg connectionKey insecure with
  | .error e => ([], .failed ("build TLS config: " ++ e))
  | .ok tlsConfig => relayLoop tlsConfig envs connectBackAddr timeout reconnectAfter fuel 0

/-- Whether an event is a TLS dial attempt. -/
def Ev.isDial : Ev → Bool
  | .dial _ _ _ => true
  | _ => false

/-- Whether an event is a non-fatal error report. -/
def Ev.isReportError : Ev → Bool
  | .reportError _ => true
  | _ => false

/-- Number of dial attempts in a trace. -/
def countDial (tr : List Ev) : Nat := tr.countP Ev.isDial

/-- Number of non-fatal error reports in a trace. -/
def countReportError (tr : List Ev) : Nat := tr.countP Ev.isReportError

/-- Sequential-session checker: scan a trace with the number of currently
open connections (0 or 1).  A dial or a new connection requires no connection
open; serving and the closes require exactly one open.  `true` on a trace
means at most one relay session is ever active and no dial begins before the
previous session has fully closed. -/
def checkAtMostOne : Nat → List Ev → Bool
  | _, [] => true
  | n, .dial _ _ _ :: r => n == 0 && checkAtMostOne n r
  | n, .connected _ :: r => n == 0 && checkAtMostOne (n + 1) r
  | n, .serveStart :: r => n == 1 && checkAtMostOne n r
  | n, .closeSession :: r => n == 1 && checkAtMostOne n r
  | n, .closeConn :: r => n == 1 && checkAtMostOne (n - 1) r
  | n, .reportError _ :: r => checkAtMostOne n r
  | n, .reportReconnect _ :: r => checkAtMostOne n r
  | n, .sleep _ :: r => checkAtMostOne n r

lemma beq_empty_false_of_ne {s : String} (h : s ≠ "") : (s == "") = false := by
  simpa using h

/-- C1: clientTLSConfig realizes the decision table: secure with a key gives
the verified config carrying the client identity from the key; insecure
without a key disables server-certificate verification and presents no client
identity; insecure with a key keeps the client identity but disables
verification and clears the expected server identity. -/
theorem clientTLSConfig_decision_table :
    (∀ key km, key ≠ "" → ParseConnectionKey key = .ok km →
      clientTLSConfig ParseConnectionKey ClientTLSConfig key false =
        .ok { certificates := [km.clientCert], rootCAs := some km.caCert,
              minVersion := 13, nextProtos := [], serverName := km.expectedPeer,
              insecureSkipVerify := false }) ∧
    (clientTLSConfig ParseConnectionKey ClientTLSConfig "" true =
      .ok { certificates := [], rootCAs := none, minVersion := 0, nextProtos := [],
            serverName := "", insecureSkipVerify := true }) ∧
    (∀ key km, key ≠ "" → ParseConnectionKey key = .ok km →
      clientTLSConfig ParseConnectionKey ClientTLSConfig key true =
        .ok { certificates := [km.clientCert], rootCAs := some km.caCert,
              minVersion := 13, nextProtos := [], serverName := "",
              insecureSkipVerify := true }) := by
  refine ⟨?_, by decide, ?_⟩
  · intro key km hk hp
    simp [clientTLSConfig, hk, beq_empty_false_of_ne hk, hp, ClientTLSConfig]
  · intro key km hk hp
    simp [clientTLSConfig, hk, beq_empty_false_of_ne hk, hp, ClientTLSConfig]

theorem clientTLSConfig_decision_table_witness :
    ("ab" : String) ≠ "" ∧
    ParseConnectionKey "ab" = .ok { clientCert := 2, caCert := 3, expectedPeer := "resocks" } ∧
    clientTLSConfig ParseConnectionKey ClientTLSConfig "ab" false =
      .ok { certificates := [2], rootCAs := some 3, minVersion := 13, nextProtos := [],
            serverName := "resocks", insecureSkipVerify := false } ∧
    clientTLSConfig ParseConnectionKey ClientTLSConfig "ab" true =
      .ok { certificates := [2], rootCAs := some 3, minVersion := 13, nextProtos := [],
            serverName := "", insecureSkipVerify := true } :=
  ⟨by decide, by decide,
   clientTLSConfig_decision_table.1 "ab"
     { clientCert := 2, caCert := 3, expectedPeer := "resocks" } (by decide) (by decide),
   clientTLSConfig_decision_table.2.2 "ab"
     { clientCert := 2, caCert := 3, expectedPeer := "resocks" } (by decide) (by decide)⟩

/-- C2: with insecure=false and an empty connection key, runRemoteProxyRelay
fails with the "connection key is required" error (wrapped with the
"build TLS config" stage) for every timeout, reconnect delay, environment and
fuel, with an empty trace: no dial attempt is ever made. -/
theorem runRemoteProxyRelay_requires_key {K : Type}
    (parseKey : String → Except GoErr K) (mkClientCfg : K → Except GoErr TLSConfig)
    (envs : Nat → AttemptEnv) (addr : String) (timeout reconnectAfter fuel : Nat) :
    runRemoteProxyRelay parseKey mkClientCfg envs addr "" timeout reconnectAfter false fuel =
      ([], .failed "build TLS config: connection key is required") := rfl

/-- C10: for any parse and config-building functions and any key on which they
succeed with config cfg, the insecure-with-key case of clientTLSConfig returns
exactly cfg with InsecureSkipVerify set to true and ServerName cleared, every
other field (certificates, root CAs, minimum version, protocol list)
unchanged; the secure case returns cfg itself. -/
theorem clientTLSConfig_insecure_with_key_frame {K : Type}
    (parseKey : String → Except GoErr K) (mkClientCfg : K → Except GoErr TLSConfig)
    (key : String) (km : K) (cfg : TLSConfig)
    (hk : key ≠ "") (hp : parseKey key = .ok km) (hc : mkClientCfg km = .ok cfg) :
    clientTLSConfig parseKey mkClientCfg key true =
      .ok { certificates := cfg.certificates, rootCAs := cfg.rootCAs,
            minVersion := cfg.minVersion, nextProtos := cfg.nextProtos,
            serverName := "", insecureSkipVerify := true } ∧
    clientTLSConfig parseKey mkClientCfg key false = .ok cfg := by
  constructor
  · simp [clientTLSConfig, hk, beq_empty_false_of_ne hk, hp, hc]
  · simp [clientTLSConfig, hk, beq_empty_false_of_ne hk, hp, hc]

theorem clientTLSConfig_insecure_with_key_frame_witness :
    clientTLSConfig ParseConnectionKey ClientTLSConfig "ab" true =
      .ok { certificates := [2], rootCAs := some 3, minVersion := 13, nextProtos := [],
            serverName := "", insecureSkipVerify := true } ∧
    clientTLSConfig ParseConnectionKey ClientTLSConfig "ab" false =
      .ok { certificates := [2], rootCAs := some 3, minVersion := 13, nextProtos := [],
            serverName := "resocks", insecureSkipVerify := false } :=
  clientTLSConfig_insecure_with_key_frame ParseConnectionKey ClientTLSConfig "ab"
    { clientCert := 2, caCert := 3, expectedPeer := "resocks" }
    { certificates := [2], rootCAs := some 3, minVersion := 13, nextProtos := [],
      serverName := "resocks", insecureSkipVerify := false }
    (by decide) (by decide) (by decide)

/-- C5: a connection-key parse error or a TLS-configuration error is fatal
regardless of the reconnect delay: runRemoteProxyRelay returns the error
wrapped with its stage, with an empty trace (before any dial and before the
first loop iteration), for every environment, fuel, timeout and reconnect
setting. -/
theorem startup_errors_fatal {K : Type}
    (parseKey : String → Except GoErr K) (mkClientCfg : K → Except GoErr TLSConfig)
    (envs : Nat → AttemptEnv) (addr key : String) (timeout reconnectAfter : Nat)
    (insecure : Bool) (fuel : Nat) :
    (∀ e, clientTLSConfig parseKey mkClientCfg key insecure = .error e →
      runRemoteProxyRelay parseKey mkClientCfg envs addr key timeout reconnectAfter insecure fuel =
        ([], .failed ("build TLS config: " ++ e))) ∧
    (∀ e, key ≠ "" → parseKey key = .error e →
      runRemoteProxyRelay parseKey mkClientCfg envs addr key timeout reconnectAfter insecure fuel =
        ([], .failed ("build TLS config: " ++ ("parse connection key: " ++ e)))) ∧
    (∀ km e, key ≠ "" → parseKey key = .ok km → mkClientCfg km = .error e →
      runRemoteProxyRelay parseKey mkClientCfg envs addr key timeout reconnectAfter insecure fuel =
        ([], .failed ("build TLS config: " ++ ("configure TLS: " ++ e)))) := by
  refine ⟨?_, ?_, ?_⟩
  · intro e h
    simp [runRemoteProxyRelay, h]
  · intro e hk hp
    have : clientTLSConfig parseKey mkClientCfg key insecure =
        .error ("parse connection key: " ++ e) := by
      cases insecure <;> simp [clientTLSConfig, hk, beq_empty_false_of_ne hk, hp]
    simp [runRemoteProxyRelay, this]
  · intro km e hk hp hc
    have : clientTLSConfig parseKey mkClientCfg key insecure =
        .error ("configure TLS: " ++ e) := by
      cases insecure <;> simp [clientTLSConfig, hk, beq_empty_false_of_ne hk, hp, hc]
    simp [runRemoteProxyRelay, this]

theorem startup_errors_fatal_witness :
    runRemoteProxyRelay ParseConnectionKey ClientTLSConfig
        (fun _ => ⟨.ok "peer", .ok (), .ok (), .ok ()⟩) "host:1080" "a!b" 5 7 false 3 =
      ([], .failed ("build TLS config: " ++ ("parse connection key: " ++ "invalid connection key"))) ∧
    runRemoteProxyRelay ParseConnectionKey (fun _ => .error "no material")
        (fun _ => ⟨.ok "peer", .ok (), .ok (), .ok ()⟩) "host:1080" "ab" 5 7 true 3 =
      ([], .failed ("build TLS config: " ++ ("configure TLS: " ++ "no material"))) :=
  ⟨(startup_errors_fatal ParseConnectionKey ClientTLSConfig
      (fun _ => ⟨.ok "peer", .ok (), .ok (), .ok ()⟩) "host:1080" "a!b" 5 7 false 3).2.1
      "invalid connection key" (by decide) (by decide),
   (startup_errors_fatal ParseConnectionKey (fun _ => .error "no material")
      (fun _ => ⟨.ok "peer", .ok (), .ok (), .ok ()⟩) "host:1080" "ab" 5 7 true 3).2.2
      { clientCert := 2, caCert := 3, expectedPeer := "resocks" } "no material"
      (by decide) (by decide) (by decide)⟩

lemma countDial_attempt (cfg : TLSConfig) (env : AttemptEnv) (addr : String) (timeout : Nat) :
    countDial (connectBackAndRelay cfg env addr timeout).1 = 1 := by
  obtain ⟨dr, mr, sr, vr⟩ := env
  cases dr <;> cases mr <;> cases sr <;> cases vr <;>
    simp [connectBackAndRelay, countDial, List.countP_cons, Ev.isDial]

lemma countReportError_attempt (cfg : TLSConfig) (env : AttemptEnv)
    (addr : String) (timeout : Nat) :
    countReportError (connectBackAndRelay cfg env addr timeout).1 = 0 := by
  obtain ⟨dr, mr, sr, vr⟩ := env
  cases dr <;> cases mr <;> cases sr <;> cases vr <;>
    simp [connectBackAndRelay, countReportError, List.countP_cons, Ev.isReportError]

lemma sleep_notMem_attempt (cfg : TLSConfig) (env : AttemptEnv)
    (addr : String) (timeout : Nat) (t : Nat) :
    Ev.sleep t ∉ (connectBackAndRelay cfg env addr timeout).1 := by
  obtain ⟨dr, mr, sr, vr⟩ := env
  cases dr <;> cases mr <;> cases sr <;> cases vr <;>
    simp [connectBackAndRelay]

/-- C6: every call of connectBackAndRelay performs exactly one dial attempt,
and that attempt is the first event, against the given address with the given
config and timeout.  On dial failure the call returns the error wrapped with
the "dial" stage and does nothing else (no retry); on success the remote
endpoint is reported immediately after the dial, before any serving. -/
theorem connectBackAndRelay_single_dial (cfg : TLSConfig) (env : AttemptEnv)
    (addr : String) (timeout : Nat) :
    countDial (connectBackAndRelay cfg env addr timeout).1 = 1 ∧
    (connectBackAndRelay cfg env addr timeout).1.head? =
      some (.dial cfg addr timeout) ∧
    (∀ e, env.dialResult = .error e →
      connectBackAndRelay cfg env addr timeout =
        ([.dial cfg addr timeout], .error ("dial: " ++ e))) ∧
    (∀ remote, env.dialResult = .ok remote →
      (connectBackAndRelay cfg env addr timeout).1.take 2 =
        [.dial cfg addr timeout, .connected remote]) := by
  refine ⟨countDial_attempt cfg env addr timeout, ?_, ?_, ?_⟩
  · obtain ⟨dr, mr, sr, vr⟩ := env
    cases dr <;> cases mr <;> cases sr <;> cases vr <;> simp [connectBackAndRelay]
  · intro e h
    obtain ⟨dr, mr, sr, vr⟩ := env
    cases dr <;> simp_all [connectBackAndRelay]
  · intro remote h
    obtain ⟨dr, mr, sr, vr⟩ := env
    cases dr <;> cases mr <;> cases sr <;> cases vr <;> simp_all [connectBackAndRelay]

theorem connectBackAndRelay_single_dial_witness :
    connectBackAndRelay TLSConfig.zero ⟨.error "refused", .ok (), .ok (), .ok ()⟩
        "host:1080" 5 =
      ([.dial TLSConfig.zero "host:1080" 5], .error ("dial: " ++ "refused")) ∧
    (connectBackAndRelay TLSConfig.zero ⟨.ok "peer:9", .ok (), .ok (), .ok ()⟩
        "host:1080" 5).1.take 2 =
      [.dial TLSConfig.zero "host:1080" 5, .connected "peer:9"] :=
  ⟨(connectBackAndRelay_single_dial TLSConfig.zero
      ⟨.error "refused", .ok (), .ok (), .ok ()⟩ "host:1080" 5).2.2.1 "refused" rfl,
   (connectBackAndRelay_single_dial TLSConfig.zero
      ⟨.ok "peer:9", .ok (), .ok (), .ok ()⟩ "host:1080" 5).2.2.2 "peer:9" rfl⟩

/-- C7: after a successful dial, on every exit path of connectBackAndRelay the
underlying connection is closed; when multiplexer initialization fails no
session exists and only the connection is closed, and whenever the session was
acquired (socks5 construction failure, serve error, or clean serve return) the
trace ends with the session close followed by the connection close — the
resources are released in reverse order of acquisition. -/
theorem connectBackAndRelay_cleanup (cfg : TLSConfig) (env : AttemptEnv)
    (addr : String) (timeout : Nat) (remote : String)
    (hd : env.dialResult = .ok remote) :
    Ev.closeConn ∈ (connectBackAndRelay cfg env addr timeout).1 ∧
    (∀ e, env.muxResult = .error e →
      (connectBackAndRelay cfg env addr timeout).1 =
        [.dial cfg addr timeout, .connected remote, .closeConn]) ∧
    (env.muxResult = .ok () →
      ∃ p, (connectBackAndRelay cfg env addr timeout).1 =
        p ++ [Ev.closeSession, Ev.closeConn]) := by
  obtain ⟨dr, mr, sr, vr⟩ := env
  replace hd : dr = Except.ok remote := hd
  subst hd
  refine ⟨?_, ?_, ?_⟩
  · cases mr <;> cases sr <;> cases vr <;> simp [connectBackAndRelay]
  · intro e h
    replace h : mr = Except.error e := h
    subst h
    simp [connectBackAndRelay]
  · intro h
    replace h : mr = Except.ok () := h
    subst h
    cases sr <;> cases vr
    · exact ⟨[.dial cfg addr timeout, .connected remote], rfl⟩
    · exact ⟨[.dial cfg addr timeout, .connected remote], rfl⟩
    · exact ⟨[.dial cfg addr timeout, .connected remote, .serveStart], rfl⟩
    · exact ⟨[.dial cfg addr timeout, .connected remote, .serveStart], rfl⟩

theorem connectBackAndRelay_cleanup_witness :
    Ev.closeConn ∈ (connectBackAndRelay TLSConfig.zero
      ⟨.ok "peer:9", .ok (), .ok (), .error "session closed"⟩ "host:1080" 5).1 ∧
    (∃ p, (connectBackAndRelay TLSConfig.zero
      ⟨.ok "peer:9", .ok (), .ok (), .error "session closed"⟩ "host:1080" 5).1 =
        p ++ [Ev.closeSession, Ev.closeConn]) :=
  ⟨(connectBackAndRelay_cleanup TLSConfig.zero
      ⟨.ok "peer:9", .ok (), .ok (), .error "session closed"⟩ "host:1080" 5 "peer:9" rfl).1,
   (connectBackAndRelay_cleanup TLSConfig.zero
      ⟨.ok "peer:9", .ok (), .ok (), .error "session closed"⟩ "host:1080" 5 "peer:9" rfl).2.2
      rfl⟩

lemma attempt_check (cfg : TLSConfig) (env : AttemptEnv) (addr : String) (t : Nat)
    (rest : List Ev) :
    checkAtMostOne 0 ((connectBackAndRelay cfg env addr t).1 ++ rest) =
      checkAtMostOne 0 rest := by
  obtain ⟨dr, mr, sr, vr⟩ := env
  cases dr <;> cases mr <;> cases sr <;> cases vr <;>
    simp [connectBackAndRelay, checkAtMostOne]

lemma relayLoop_check (cfg : TLSConfig) (envs : Nat → AttemptEnv) (addr : String)
    (t d : Nat) : ∀ fuel i, checkAtMostOne 0 (relayLoop cfg envs addr t d fuel i).1 = true := by
  intro fuel
  induction fuel with
  | zero => intro i; simp [relayLoop, checkAtMostOne]
  | succ n ih =>
    intro i
    simp only [relayLoop]
    cases h : (connectBackAndRelay cfg (envs i) addr t).2 with
    | error e =>
      simp only [h]
      by_cases hd : d = 0
      · simpa [hd] using attempt_check cfg (envs i) addr t []
      · simp only [if_neg hd]
        rw [attempt_check]
        simp [checkAtMostOne, ih]
    | ok u =>
      simp only [h]
      by_cases hd : d = 0
      · simpa [hd] using attempt_check cfg (envs i) addr t []
      · simp only [if_neg hd]
        rw [attempt_check]
        simp [checkAtMostOne, ih]

lemma relayLoop_running (cfg : TLSConfig) (envs : Nat → AttemptEnv) (addr : String)
    (t d : Nat) (hd : d ≠ 0) :
    ∀ fuel i, (relayLoop cfg envs addr t d fuel i).2 = .running := by
  intro fuel
  induction fuel with
  | zero => intro i; simp [relayLoop]
  | succ n ih =>
    intro i
    simp only [relayLoop]
    cases h : (connectBackAndRelay cfg (envs i) addr t).2 <;>
      simp [h, if_neg hd, ih]

lemma relayLoop_countDial (cfg : TLSConfig) (envs : Nat → AttemptEnv) (addr : String)
    (t d : Nat) (hd : d ≠ 0) :
    ∀ fuel i, countDial (relayLoop cfg envs addr t d fuel i).1 = fuel := by
  intro fuel
  induction fuel with
  | zero => intro i; simp [relayLoop, countDial]
  | succ n ih =>
    intro i
    have h1 := countDial_attempt cfg (envs i) addr t
    have h2 := ih (i + 1)
    simp only [countDial] at h1 h2 ⊢
    simp only [relayLoop]
    cases h : (connectBackAndRelay cfg (envs i) addr t).2 <;>
      simp [h, if_neg hd, List.countP_append, List.countP_cons, Ev.isDial, h1, h2] <;>
      omega

lemma relayLoop_countReportError (cfg : TLSConfig) (envs : Nat → AttemptEnv)
    (addr : String) (t d : Nat) (hd : d ≠ 0)
    (hfail : ∀ j, ∃ e, (connectBackAndRelay cfg (envs j) addr t).2 = .error e) :
    ∀ fuel i, countReportError (relayLoop cfg envs addr t d fuel i).1 = fuel := by
  intro fuel
  induction fuel with
  | zero => intro i; simp [relayLoop, countReportError]
  | succ n ih =>
    intro i
    obtain ⟨e, he⟩ := hfail i
    have h1 := countReportError_attempt cfg (envs i) addr t
    have h2 := ih (i + 1)
    simp only [countReportError] at h1 h2 ⊢
    simp only [relayLoop]
    rw [he]
    simp [if_neg hd, List.countP_append, List.countP_cons, Ev.isReportError, h1, h2]

lemma relayLoop_sleep_const (cfg : TLSConfig) (envs : Nat → AttemptEnv)
    (addr : String) (t d : Nat) :
    ∀ fuel i t0, Ev.sleep t0 ∈ (relayLoop cfg envs addr t d fuel i).1 → t0 = d := by
  intro fuel
  induction fuel with
  | zero => intro i t0 h; simp [relayLoop] at h
  | succ n ih =>
    intro i t0 h
    simp only [relayLoop] at h
    cases hr : (connectBackAndRelay cfg (envs i) addr t).2 with
    | error e =>
      simp only [hr] at h
      by_cases hd : d = 0
      · rw [if_pos hd] at h
        exact absurd h (sleep_notMem_attempt cfg (envs i) addr t t0)
      · rw [if_neg hd] at h
        simp only [List.mem_append, List.mem_cons] at h
        rcases h with h | h | h | h | h
        · exact absurd h (sleep_notMem_attempt cfg (envs i) addr t t0)
        · cases h
        · cases h
        · cases h; rfl
        · exact ih (i + 1) t0 h
    | ok u =>
      simp only [hr] at h
      by_cases hd : d = 0
      · rw [if_pos hd] at h
        exact absurd h (sleep_notMem_attempt cfg (envs i) addr t t0)
      · rw [if_neg hd] at h
        simp only [List.mem_append, List.mem_cons] at h
        rcases h with h | h | h | h
        · exact absurd h (sleep_notMem_attempt cfg (envs i) addr t t0)
        · cases h
        · cases h; rfl
        · exact ih (i + 1) t0 h

/-- C3: with reconnect-after zero, a failing connection attempt makes
runRemoteProxyRelay return exactly that error after exactly one dial (no
retry), and a clean attempt makes it return success and end the loop. -/
theorem relay_fail_fast_without_reconnect {K : Type}
    (parseKey : String → Except GoErr K) (mkClientCfg : K → Except GoErr TLSConfig)
    (envs : Nat → AttemptEnv) (addr key : String) (timeout : Nat) (insecure : Bool)
    (fuel : Nat) (cfg : TLSConfig)
    (hc : clientTLSConfig parseKey mkClientCfg key insecure = .ok cfg) :
    (∀ e, (connectBackAndRelay cfg (envs 0) addr timeout).2 = .error e →
      runRemoteProxyRelay parseKey mkClientCfg envs addr key timeout 0 insecure (fuel + 1) =
        ((connectBackAndRelay cfg (envs 0) addr timeout).1, .failed e) ∧
      countDial (runRemoteProxyRelay parseKey mkClientCfg envs addr key timeout 0 insecure
        (fuel + 1)).1 = 1) ∧
    ((connectBackAndRelay cfg (envs 0) addr timeout).2 = .ok () →
      runRemoteProxyRelay parseKey mkClientCfg envs addr key timeout 0 insecure (fuel + 1) =
        ((connectBackAndRelay cfg (envs 0) addr timeout).1, .done)) := by
  constructor
  · intro e h
    constructor
    · simp only [runRemoteProxyRelay, hc, relayLoop]
      simp [h]
    · simp only [runRemoteProxyRelay, hc, relayLoop]
      simp [h, countDial_attempt]
  · intro h
    simp only [runRemoteProxyRelay, hc, relayLoop]
    simp [h]

theorem relay_fail_fast_without_reconnect_witness :
    (runRemoteProxyRelay ParseConnectionKey ClientTLSConfig
        (fun _ => ⟨.error "refused", .ok (), .ok (), .ok ()⟩) "host:1080" "ab" 5 0 false 1 =
      ([.dial { certificates := [2], rootCAs := some 3, minVersion := 13, nextProtos := [],
                serverName := "resocks", insecureSkipVerify := false } "host:1080" 5],
       .failed ("dial: " ++ "refused")) ∧
     countDial (runRemoteProxyRelay ParseConnectionKey ClientTLSConfig
        (fun _ => ⟨.error "refused", .ok (), .ok (), .ok ()⟩)
        "host:1080" "ab" 5 0 false 1).1 = 1) ∧
    runRemoteProxyRelay ParseConnectionKey ClientTLSConfig
        (fun _ => ⟨.ok "peer:9", .ok (), .ok (), .ok ()⟩) "host:1080" "ab" 5 0 false 1 =
      ([.dial { certificates := [2], rootCAs := some 3, minVersion := 13, nextProtos := [],
                serverName := "resocks", insecureSkipVerify := false } "host:1080" 5,
        .connected "peer:9", .serveStart, .closeSession, .closeConn], .done) :=
  ⟨(relay_fail_fast_without_reconnect ParseConnectionKey ClientTLSConfig
      (fun _ => ⟨.error "refused", .ok (), .ok (), .ok ()⟩) "host:1080" "ab" 5 false 0
      { certificates := [2], rootCAs := some 3, minVersion := 13, nextProtos := [],
        serverName := "resocks", insecureSkipVerify := false } (by decide)).1
      ("dial: " ++ "refused") rfl,
   (relay_fail_fast_without_reconnect ParseConnectionKey ClientTLSConfig
      (fun _ => ⟨.ok "peer:9", .ok (), .ok (), .ok ()⟩) "host:1080" "ab" 5 false 0
      { certificates := [2], rootCAs := some 3, minVersion := 13, nextProtos := [],
        serverName := "resocks", insecureSkipVerify := false } (by decide)).2 rfl⟩

/-- C4: with a positive reconnect delay, consecutive connection failures never
make runRemoteProxyRelay return: on any amount of fuel the loop is still
running, having performed one dial and reported one non-fatal error per
iteration, and every sleep between attempts is exactly the configured
delay. -/
theorem relay_reconnect_persists {K : Type}
    (parseKey : String → Except GoErr K) (mkClientCfg : K → Except GoErr TLSConfig)
    (envs : Nat → AttemptEnv) (addr key : String) (timeout d : Nat) (insecure : Bool)
    (fuel : Nat) (cfg : TLSConfig)
    (hc : clientTLSConfig parseKey mkClientCfg key insecure = .ok cfg) (hd : 0 < d)
    (hfail : ∀ i, ∃ e, (connectBackAndRelay cfg (envs i) addr timeout).2 = .error e) :
    (runRemoteProxyRelay parseKey mkClientCfg envs addr key timeout d insecure fuel).2 =
      .running ∧
    countDial (runRemoteProxyRelay parseKey mkClientCfg envs addr key timeout d insecure
      fuel).1 = fuel ∧
    countReportError (runRemoteProxyRelay parseKey mkClientCfg envs addr key timeout d
      insecure fuel).1 = fuel ∧
    (∀ t0, Ev.sleep t0 ∈ (runRemoteProxyRelay parseKey mkClientCfg envs addr key timeout d
      insecure fuel).1 → t0 = d) := by
  have hd2 : d ≠ 0 := Nat.pos_iff_ne_zero.mp hd
  simp only [runRemoteProxyRelay, hc]
  exact ⟨relayLoop_running cfg envs addr timeout d hd2 fuel 0,
    relayLoop_countDial cfg envs addr timeout d hd2 fuel 0,
    relayLoop_countReportError cfg envs addr timeout d hd2 hfail fuel 0,
    fun t0 => relayLoop_sleep_const cfg envs addr timeout d fuel 0 t0⟩

theorem relay_reconnect_persists_witness :
    (runRemoteProxyRelay ParseConnectionKey ClientTLSConfig
        (fun _ => ⟨.error "refused", .ok (), .ok (), .ok ()⟩)
        "host:1080" "ab" 5 1 false 2).2 = .running ∧
    countDial (runRemoteProxyRelay ParseConnectionKey ClientTLSConfig
        (fun _ => ⟨.error "refused", .ok (), .ok (), .ok ()⟩)
        "host:1080" "ab" 5 1 false 2).1 = 2 ∧
    countReportError (runRemoteProxyRelay ParseConnectionKey ClientTLSConfig
        (fun _ => ⟨.error "refused", .ok (), .ok (), .ok ()⟩)
        "host:1080" "ab" 5 1 false 2).1 = 2 :=
  ⟨(relay_reconnect_persists ParseConnectionKey ClientTLSConfig
      (fun _ => ⟨.error "refused", .ok (), .ok (), .ok ()⟩) "host:1080" "ab" 5 1 false 2
      { certificates := [2], rootCAs := some 3, minVersion := 13, nextProtos := [],
        serverName := "resocks", insecureSkipVerify := false } (by decide) (by decide)
      (fun i => ⟨"dial: " ++ "refused", rfl⟩)).1,
   (relay_reconnect_persists ParseConnectionKey ClientTLSConfig
      (fun _ => ⟨.error "refused", .ok (), .ok (), .ok ()⟩) "host:1080" "ab" 5 1 false 2
      { certificates := [2], rootCAs := some 3, minVersion := 13, nextProtos := [],
        serverName := "resocks", insecureSkipVerify := false } (by decide) (by decide)
      (fun i => ⟨"dial: " ++ "refused", rfl⟩)).2.1,
   (relay_reconnect_persists ParseConnectionKey ClientTLSConfig
      (fun _ => ⟨.error "refused", .ok (), .ok (), .ok ()⟩) "host:1080" "ab" 5 1 false 2
      { certificates := [2], rootCAs := some 3, minVersion := 13, nextProtos := [],
        serverName := "resocks", insecureSkipVerify := false } (by decide) (by decide)
      (fun i => ⟨"dial: " ++ "refused", rfl⟩)).2.2.1⟩

/-- C9: with a positive reconnect delay, runRemoteProxyRelay never returns,
whatever the attempt outcomes (clean terminations included): on any amount of
fuel the loop is still running and has performed one dial per iteration, so
the success outcome is reachable only when reconnect is disabled. -/
theorem relay_reconnect_never_returns {K : Type}
    (parseKey : String → Except GoErr K) (mkClientCfg : K → Except GoErr TLSConfig)
    (envs : Nat → AttemptEnv) (addr key : String) (timeout d : Nat) (insecure : Bool)
    (fuel : Nat) (cfg : TLSConfig)
    (hc : clientTLSConfig parseKey mkClientCfg key insecure = .ok cfg) (hd : 0 < d) :
    (runRemoteProxyRelay parseKey mkClientCfg envs addr key timeout d insecure fuel).2 =
      .running ∧
    countDial (runRemoteProxyRelay parseKey mkClientCfg envs addr key timeout d insecure
      fuel).1 = fuel := by
  have hd2 : d ≠ 0 := Nat.pos_iff_ne_zero.mp hd
  simp only [runRemoteProxyRelay, hc]
  exact ⟨relayLoop_running cfg envs addr timeout d hd2 fuel 0,
    relayLoop_countDial cfg envs addr timeout d hd2 fuel 0⟩

theorem relay_reconnect_never_returns_witness :
    (runRemoteProxyRelay ParseConnectionKey ClientTLSConfig
        (fun _ => ⟨.ok "peer:9", .ok (), .ok (), .ok ()⟩)
        "host:1080" "ab" 5 2 false 3).2 = .running ∧
    countDial (runRemoteProxyRelay ParseConnectionKey ClientTLSConfig
        (fun _ => ⟨.ok "peer:9", .ok (), .ok (), .ok ()⟩)
        "host:1080" "ab" 5 2 false 3).1 = 3 :=
  relay_reconnect_never_returns ParseConnectionKey ClientTLSConfig
    (fun _ => ⟨.ok "peer:9", .ok (), .ok (), .ok ()⟩) "host:1080" "ab" 5 2 false 3
    { certificates := [2], rootCAs := some 3, minVersion := 13, nextProtos := [],
      serverName := "resocks", insecureSkipVerify := false } (by decide) (by decide)

/-- C8: in every execution of the relay, at most one session is active at any
time: the sequential-session checker accepts every trace of
runRemoteProxyRelay — a dial or a new connection happens only with no
connection open, so dials and bridges never overlap and a new dial begins
only after the previous session has fully closed. -/
theorem relay_at_most_one_session {K : Type}
    (parseKey : String → Except GoErr K) (mkClientCfg : K → Except GoErr TLSConfig)
    (envs : Nat → AttemptEnv) (addr key : String) (timeout d : Nat) (insecure : Bool)
    (fuel : Nat) :
    checkAtMostOne 0 (runRemoteProxyRelay parseKey mkClientCfg envs addr key timeout d
      insecure fuel).1 = true := by
  cases hc : clientTLSConfig parseKey mkClientCfg key insecure with
  | error e => simp [runRemoteProxyRelay, hc, checkAtMostOne]
  | ok cfg =>
    simp only [runRemoteProxyRelay, hc]
    exact relayLoop_check cfg envs addr timeout d fuel 0
